import Mathlib

/-!
Verification of the `my_stl::pair` library (`src/include/my_stl/pair.hpp`,
`src/include/my_stl/detail/pair_impl.hpp`, `src/include/my_stl/detail/traits.hpp`).

The C++ code is shallowly embedded: class templates over element types `T1`,
`T2` become Lean definitions parameterised over types `α`, `β`; member
functions become pure functions; element-type operations (equality, ordering,
hashing, assignment, possibly-throwing constructors) are passed in as explicit
function parameters, exactly as C++ instantiates them per element type.
-/

namespace MyStl

/-- The `my_stl::pair<T1, T2>` facade (`pair.hpp` lines 45-54): it holds two
plain named data members `first : T1` and `second : T2` and does not delegate
its storage to `detail::pair_impl`. -/
structure Pair (α β : Type) where
  first : α
  second : β
deriving DecidableEq

/-- `std::pair<T1, T2>` as consumed by the conversion operator and the
converting constructors: an ordinary two-field record. -/
structure StdPair (α β : Type) where
  first : α
  second : β
deriving DecidableEq

/-! ## Comparison operators (`pair.hpp` lines 183-198)

Element equality and ordering are the `Bool`-valued operations C++ requires of
`T1`/`T2`; the pair operators combine them exactly as the source does. -/

/-- `operator==(const pair&, const pair&)` (`pair.hpp` 183-186):
`lhs.first == rhs.first && lhs.second == rhs.second`. -/
def pairEq (eq1 : α → α → Bool) (eq2 : β → β → Bool) (lhs rhs : Pair α β) : Bool :=
  eq1 lhs.first rhs.first && eq2 lhs.second rhs.second

/-- `operator!=(const pair&, const pair&)` (`pair.hpp` 188-191): `!(lhs == rhs)`. -/
def pairNe (eq1 : α → α → Bool) (eq2 : β → β → Bool) (lhs rhs : Pair α β) : Bool :=
  ! pairEq eq1 eq2 lhs rhs

/-- `operator<(const pair&, const pair&)` (`pair.hpp` 193-198):
`if (lhs.first < rhs.first) return true; if (rhs.first < lhs.first) return false;
return lhs.second < rhs.second;`. -/
def pairLt (lt1 : α → α → Bool) (lt2 : β → β → Bool) (lhs rhs : Pair α β) : Bool :=
  if lt1 lhs.first rhs.first then true
  else if lt1 rhs.first lhs.first then false
  else lt2 lhs.second rhs.second

/-! ## Conversion to and from `std::pair` (`pair.hpp` lines 87-88 and 156-160) -/

/-- `operator std::pair<U1, U2>() const &` (`pair.hpp` 157-160):
`return std::pair<U1, U2>(first, second);`. -/
def pairToStd (p : Pair α β) : StdPair α β :=
  ⟨p.first, p.second⟩

/-- `pair(const std::pair<U1, U2>& other)` (`pair.hpp` 87-88):
`first(other.first), second(other.second)`. -/
def pairFromStd (o : StdPair α β) : Pair α β :=
  ⟨o.first, o.second⟩

/-! ## Hashing (`pair.hpp` lines 347-354)

`std::hash<my_stl::pair<T1, T2>>::operator()` computes
`h1 ^ (h2 << 1)` on `size_t`; `size_t` arithmetic is modelled as `Nat`
arithmetic modulo `2 ^ 64`. -/

/-- `std::hash<my_stl::pair<T1, T2>>::operator()` (`pair.hpp` 349-353).
`hash1`/`hash2` stand for `std::hash<T1>`/`std::hash<T2>`; their results are
`size_t` values, so each intermediate is reduced modulo `2 ^ 64` as the
hardware would. -/
def pairHash (hash1 : α → Nat) (hash2 : β → Nat) (p : Pair α β) : Nat :=
  let h1 := hash1 p.first % 2 ^ 64
  let h2 := hash2 p.second % 2 ^ 64
  (h1 ^^^ (h2 <<< 1 % 2 ^ 64)) % 2 ^ 64

/-! ## swap (`pair.hpp` lines 149-154 and 290-293)

`pair::swap` does `using std::swap; swap(first, other.first);
swap(second, other.second);`. `std::swap(a, b)` is the generic three-move
exchange `tmp = move(a); a = move(b); b = move(tmp);`. It is modelled twice,
following the two aliasing situations a call can be in: the two lvalues are
distinct objects, or they are the same object (as in `p.swap(p)`). -/

/-- Generic `std::swap(a, b)` on two distinct objects: the three-move exchange,
returning the final values of `(a, b)`. -/
def stdSwapDistinct (a b : α) : α × α :=
  let tmp := a
  let a' := b
  let b' := tmp
  (a', b')

/-- Generic `std::swap(x, x)` where both references alias one object: the
three-move sequence `tmp = move(x); x = move(x); x = move(tmp)` acting on the
single cell, returning its final value. -/
def stdSwapSelf (x : α) : α :=
  let tmp := x
  let x₁ := x
  let x₂ := tmp
  (fun _ => x₂) x₁

/-- `pair::swap(pair& other)` (`pair.hpp` 150-154) when `other` is a distinct
object: member-wise `std::swap` on `first` then `second`; returns the final
values of `(*this, other)`. The free `swap(lhs, rhs)` (`pair.hpp` 290-293)
only forwards to this. -/
def pairSwap (p q : Pair α β) : Pair α β × Pair α β :=
  let (f₁, f₂) := stdSwapDistinct p.first q.first
  let (s₁, s₂) := stdSwapDistinct p.second q.second
  (⟨f₁, s₁⟩, ⟨f₂, s₂⟩)

/-- `pair::swap` invoked as `p.swap(p)`: both member swaps alias the same
slot. -/
def pairSwapSelf (p : Pair α β) : Pair α β :=
  ⟨stdSwapSelf p.first, stdSwapSelf p.second⟩

/-! ## Assignment operators (`pair.hpp` lines 97-113)

Both `operator=(const pair&)` and `operator=(pair&&)` guard with
`if (this != &other)` and only then assign both slots. The guard's outcome is
the boolean `thisNeqOther`; the element assignments (`first = other.first`,
or the move form) are passed in as functions `(current target, source) ↦ new
target`, so that element types with arbitrary — even value-destroying —
self-assignment behaviour are covered. -/

/-- `pair& operator=(const pair& other)` (`pair.hpp` 98-104). -/
def pairCopyAssign (thisNeqOther : Bool) (asg1 : α → α → α) (asg2 : β → β → β)
    (tgt src : Pair α β) : Pair α β :=
  if thisNeqOther then ⟨asg1 tgt.first src.first, asg2 tgt.second src.second⟩
  else tgt

/-- `pair& operator=(pair&& other)` (`pair.hpp` 107-113): same guard, slots
assigned through the element move-assignments. -/
def pairMoveAssign (thisNeqOther : Bool) (masg1 : α → α → α) (masg2 : β → β → β)
    (tgt src : Pair α β) : Pair α β :=
  if thisNeqOther then ⟨masg1 tgt.first src.first, masg2 tgt.second src.second⟩
  else tgt

end MyStl

namespace MyStl

/-! ## The four storage-layout variants (`detail/pair_impl.hpp` lines 47-207)

`pair_impl_base<T1, T2, FirstEmpty, SecondEmpty>` has four specialisations.
Each is embedded as its own structure whose fields are exactly the
subobjects the specialisation declares (data members, and for the EBCO cases
the private base-class subobjects). The member functions are translated per
variant. -/

/-- `pair_impl_base<T1, T2, false, false>` (lines 47-84): data members
`T1 first_; T2 second_;`, no bases. -/
structure BaseFF (α β : Type) where
  first_ : α
  second_ : β

/-- `pair_impl_base<T1, T2, true, false>` (lines 90-126): private base `T1`,
data member `T2 second_;`. -/
structure BaseTF (α β : Type) where
  baseT1 : α
  second_ : β

/-- `pair_impl_base<T1, T2, false, true>` (lines 132-168): private base `T2`,
data member `T1 first_;`. -/
structure BaseFT (α β : Type) where
  first_ : α
  baseT2 : β

/-- `pair_impl_base<T1, T2, true, true>` (lines 174-207): private bases `T1`
and `T2`, no data members. -/
structure BaseTT (α β : Type) where
  baseT1 : α
  baseT2 : β

/-- Value constructor of the `<false, false>` variant (lines 58-60):
`first_(forward(u1)), second_(forward(u2))`. -/
def BaseFF.mk2 (u1 : α) (u2 : β) : BaseFF α β := ⟨u1, u2⟩

/-- Value constructor of the `<true, false>` variant (lines 100-102):
`T1(forward(u1)), second_(forward(u2))`. -/
def BaseTF.mk2 (u1 : α) (u2 : β) : BaseTF α β := ⟨u1, u2⟩

/-- Value constructor of the `<false, true>` variant (lines 142-144):
`first_(forward(u1)), T2(forward(u2))`. -/
def BaseFT.mk2 (u1 : α) (u2 : β) : BaseFT α β := ⟨u1, u2⟩

/-- Value constructor of the `<true, true>` variant (lines 181-183):
`T1(forward(u1)), T2(forward(u2))`. -/
def BaseTT.mk2 (u1 : α) (u2 : β) : BaseTT α β := ⟨u1, u2⟩

/-- `first()`/`second()` of the `<false, false>` variant (lines 72-76): both
return the corresponding data member. -/
def BaseFF.obs (s : BaseFF α β) : α × β := (s.first_, s.second_)

/-- `first()`/`second()` of the `<true, false>` variant (lines 114-118):
`first()` returns `*this` viewed as the `T1` base subobject, `second()` the
data member. -/
def BaseTF.obs (s : BaseTF α β) : α × β := (s.baseT1, s.second_)

/-- `first()`/`second()` of the `<false, true>` variant (lines 156-160). -/
def BaseFT.obs (s : BaseFT α β) : α × β := (s.first_, s.baseT2)

/-- `first()`/`second()` of the `<true, true>` variant (lines 195-199): both
accessors return the corresponding base subobject. -/
def BaseTT.obs (s : BaseTT α β) : α × β := (s.baseT1, s.baseT2)

/-- `swap` of the `<false, false>` variant (lines 79-83): member-wise
`std::swap` with a distinct object; final values of `(*this, other)`. -/
def BaseFF.swap2 (s o : BaseFF α β) : BaseFF α β × BaseFF α β :=
  let (a, a') := stdSwapDistinct s.first_ o.first_
  let (b, b') := stdSwapDistinct s.second_ o.second_
  (⟨a, b⟩, ⟨a', b'⟩)

/-- `swap` of the `<true, false>` variant (lines 121-125): swaps the `T1`
base subobjects, then the `second_` members. -/
def BaseTF.swap2 (s o : BaseTF α β) : BaseTF α β × BaseTF α β :=
  let (a, a') := stdSwapDistinct s.baseT1 o.baseT1
  let (b, b') := stdSwapDistinct s.second_ o.second_
  (⟨a, b⟩, ⟨a', b'⟩)

/-- `swap` of the `<false, true>` variant (lines 163-167). -/
def BaseFT.swap2 (s o : BaseFT α β) : BaseFT α β × BaseFT α β :=
  let (a, a') := stdSwapDistinct s.first_ o.first_
  let (b, b') := stdSwapDistinct s.baseT2 o.baseT2
  (⟨a, b⟩, ⟨a', b'⟩)

/-- `swap` of the `<true, true>` variant (lines 202-206): swaps both base
subobjects. -/
def BaseTT.swap2 (s o : BaseTT α β) : BaseTT α β × BaseTT α β :=
  let (a, a') := stdSwapDistinct s.baseT1 o.baseT1
  let (b, b') := stdSwapDistinct s.baseT2 o.baseT2
  (⟨a, b⟩, ⟨a', b'⟩)

/-! ## Exception semantics of the facade operations

A possibly-throwing element operation is a function into `Except ε ·`.
A C++ function whose body lets an exception escape either propagates it
(no `noexcept`) or calls `std::terminate` (declared `noexcept`); `CResult`
records the three observable outcomes at the call site. -/

/-- Observable outcome of calling a pair operation: normal return, an
exception propagated to the caller, or `std::terminate` reached. -/
inductive CResult (ε γ : Type) where
  | ok : γ → CResult ε γ
  | thrown : ε → CResult ε γ
  | terminated : CResult ε γ
deriving DecidableEq

/-- Run a body under a function with no `noexcept` specifier: an escaping
exception propagates to the caller unmodified. -/
def plainRun (r : Except ε γ) : CResult ε γ :=
  match r with
  | .ok a => .ok a
  | .error e => .thrown e

/-- Run a body under a function declared `noexcept`: an escaping exception
calls `std::terminate`. -/
def noexceptRun (r : Except ε γ) : CResult ε γ :=
  match r with
  | .ok a => .ok a
  | .error _ => .terminated

/-- `pair(const T1& x, const T2& y)` (`pair.hpp` 64): copy-initialises both
slots; carries no `noexcept` specifier, elements copied in declaration order
(`c1`, `c2` are the element copy constructors). -/
def pairCtorValue (c1 : α → Except ε α) (c2 : β → Except ε β) (x : α) (y : β) :
    CResult ε (Pair α β) :=
  plainRun (do
    let a ← c1 x
    let b ← c2 y
    pure ⟨a, b⟩)

/-- `pair(T1&& x, T2&& y) noexcept` (`pair.hpp` 67): move-initialises both
slots under an unconditional `noexcept` (`m1`, `m2` are the element move
constructors). -/
def pairCtorRvalue (m1 : α → Except ε α) (m2 : β → Except ε β) (x : α) (y : β) :
    CResult ε (Pair α β) :=
  noexceptRun (do
    let a ← m1 x
    let b ← m2 y
    pure ⟨a, b⟩)

/-- `pair(std::pair<U1, U2>&& other) noexcept` (`pair.hpp` 90-91):
forward-initialises both slots from the source's members under an
unconditional `noexcept`. -/
def pairCtorFromStdMove (m1 : α → Except ε α) (m2 : β → Except ε β)
    (o : StdPair α β) : CResult ε (Pair α β) :=
  noexceptRun (do
    let a ← m1 o.first
    let b ← m2 o.second
    pure ⟨a, b⟩)

/-- `pair::swap(pair& other) noexcept` (`pair.hpp` 150-154) with
possibly-throwing element swap operations `s1`, `s2` (each returning the two
final slot values), under the declared unconditional `noexcept`. -/
def pairSwapOp (s1 : α → α → Except ε (α × α)) (s2 : β → β → Except ε (β × β))
    (p q : Pair α β) : CResult ε (Pair α β × Pair α β) :=
  noexceptRun (do
    let (f, f') ← s1 p.first q.first
    let (s, s') ← s2 p.second q.second
    pure (⟨f, s⟩, ⟨f', s'⟩))

/-! ## Compile-time dispatch over the shape of an element type

`detail::pair_impl<T1, T2>` (`detail/pair_impl.hpp` 210-301) is selected by
template specialisation on the shape of the two element types: the partial
specialisation `pair_impl<T1[N1], T2[N2]>` (lines 296-301) matches only when
BOTH arguments are array types and contains
`static_assert(sizeof(T1) == 0, ...)`, which fails on every instantiation;
reference shapes (lines 277-290) route to the non-EBCO base; everything else
takes the primary template. The facade `my_stl::pair` itself (a plain
two-member class, `pair.hpp` 45-166) contains no shape check at all and
never instantiates `pair_impl`. -/

/-- Shape of a C++ element type, as far as the specialisation dispatch of
`pair_impl` distinguishes it. -/
inductive TypeForm where
  | value : TypeForm
  | reference : TypeForm
  | array : Nat → TypeForm
deriving DecidableEq

/-- Whether a shape is an array shape. -/
def TypeForm.isArray : TypeForm → Bool
  | .array _ => true
  | _ => false

/-- Whether instantiating `detail::pair_impl<T1, T2>` fires a compile-time
diagnostic: only the both-arrays partial specialisation (lines 296-301)
carries the always-failing `static_assert`. -/
def pairImplRejected : TypeForm → TypeForm → Bool
  | .array _, .array _ => true
  | _, _ => false

/-- Whether instantiating the facade `my_stl::pair<T1, T2>` fires a
compile-time diagnostic: the class body (`pair.hpp` 45-166) contains no
`static_assert` and does not instantiate `pair_impl`. -/
def pairFacadeRejected : TypeForm → TypeForm → Bool :=
  fun _ _ => false

/-! ## Object sizes

A model of the Itanium-style object layout the compilers targeted by this
repository use, restricted to the class shapes that occur in the source:
a class with two data members, a class with one empty base and one data
member, and a class with two (distinct) empty bases and no members. An empty
class has `sizeof` 1 and alignment 1; an empty, non-`final` base subobject
occupies no bytes (the empty-base optimisation). -/

/-- The layout-relevant facts about a C++ element type: its `sizeof`, its
alignment, `std::is_empty_v` and `std::is_final_v`. -/
structure CType where
  size : Nat
  align : Nat
  isEmpty : Bool
  isFinal : Bool
deriving DecidableEq

/-- A `CType` is well formed when alignment is positive and divides the size,
the size is positive, and an empty type has size 1 and alignment 1. -/
abbrev CType.WF (t : CType) : Prop :=
  0 < t.align ∧ t.size % t.align = 0 ∧ 0 < t.size ∧
    (t.isEmpty = true → t.size = 1 ∧ t.align = 1)

/-- Round `n` up to the next multiple of the (positive) alignment `a`. -/
def alignUp (n a : Nat) : Nat :=
  ((n + a - 1) / a) * a

/-- `detail::is_empty_and_non_final_v<T>` (`detail/traits.hpp` 40-46):
`std::is_empty_v<T> && !std::is_final_v<T>`. -/
def is_empty_and_non_final (t : CType) : Bool :=
  t.isEmpty && !t.isFinal

/-- `sizeof` of a class whose subobjects are two data members of types `t1`
then `t2` — the layout of the facade `my_stl::pair` (members `first`,
`second`, `pair.hpp` 53-54) and of `pair_impl_base<T1, T2, false, false>`
(members `first_`, `second_`). -/
def twoFieldSize (t1 t2 : CType) : Nat :=
  let o2 := alignUp t1.size t2.align
  max 1 (alignUp (o2 + t2.size) (max t1.align t2.align))

/-- `sizeof(my_stl::pair<T1, T2>)`: the facade stores its own two named
members, so it always has the two-field layout. -/
def pairFacadeSize (t1 t2 : CType) : Nat :=
  twoFieldSize t1 t2

/-- `sizeof` of a class with one empty, non-`final` base and one data member
of type `m`: the base occupies no bytes, so only the member and the overall
alignment count. -/
def emptyBaseOneFieldSize (base m : CType) : Nat :=
  max 1 (alignUp m.size (max base.align m.align))

/-- `sizeof(detail::pair_impl<T1, T2>)`: the dispatch of
`pair_impl_base<T1, T2, is_empty_and_non_final_v<T1>, is_empty_and_non_final_v<T2>>`
(`detail/pair_impl.hpp` 210-213) selects one of the four layouts; the
both-bases specialisation has no data members, so its size is 1. -/
def pairImplSize (t1 t2 : CType) : Nat :=
  match is_empty_and_non_final t1, is_empty_and_non_final t2 with
  | true,  true  => 1
  | true,  false => emptyBaseOneFieldSize t1 t2
  | false, true  => emptyBaseOneFieldSize t2 t1
  | false, false => twoFieldSize t1 t2

/-- The layout facts of an empty, non-`final` class such as `Empty1` in the
repository's EBCO tests. -/
def emptyCT : CType := ⟨1, 1, true, false⟩

/-- A second empty, non-`final` class (`Empty2`). -/
def emptyCT2 : CType := ⟨1, 1, true, false⟩

/-- The layout facts of a 4-byte `int`. -/
def int4CT : CType := ⟨4, 4, false, false⟩

/-! ## Strict weak orderings

A `Bool`-valued relation is a strict weak ordering when it is irreflexive,
transitive, and incomparability (`¬ a < b ∧ ¬ b < a`) is transitive. -/

/-- `lt` is a strict weak ordering. -/
abbrev IsSWO (lt : α → α → Bool) : Prop :=
  (∀ a, lt a a = false) ∧
  (∀ a b c, lt a b = true → lt b c = true → lt a c = true) ∧
  (∀ a b c, lt a b = false → lt b a = false → lt b c = false → lt c b = false →
    lt a c = false ∧ lt c a = false)

/-- A concrete strict weak ordering on `Fin 2`, used to instantiate the
generic ordering theorem. -/
def finLt (a b : Fin 2) : Bool :=
  decide (a.val < b.val)

end MyStl

namespace MyStl

/-! ## Helper lemmas on strict weak orderings -/

theorem swo_asymm (lt : α → α → Bool) (h : IsSWO lt) {a b : α}
    (hab : lt a b = true) : lt b a = false := by
  cases hba : lt b a with
  | false => rfl
  | true =>
    have h3 := h.2.1 a b a hab hba
    rw [h.1 a] at h3
    simp at h3

theorem swo_lt_incomp (lt : α → α → Bool) (h : IsSWO lt) {a b c : α}
    (hab : lt a b = true) (hbc : lt b c = false) (hcb : lt c b = false) :
    lt a c = true := by
  cases hac : lt a c with
  | true => rfl
  | false =>
    have hca : lt c a = false := by
      cases hca : lt c a with
      | false => rfl
      | true =>
        have h3 := h.2.1 c a b hca hab
        rw [hcb] at h3
        simp at h3
    have h4 := h.2.2 a c b hac hca hcb hbc
    obtain ⟨h5, _⟩ := h4
    rw [hab] at h5
    simp at h5

theorem swo_incomp_lt (lt : α → α → Bool) (h : IsSWO lt) {a b c : α}
    (hab : lt a b = false) (hba : lt b a = false) (hbc : lt b c = true) :
    lt a c = true := by
  cases hac : lt a c with
  | true => rfl
  | false =>
    have hca : lt c a = false := by
      cases hca : lt c a with
      | false => rfl
      | true =>
        have hcb := swo_lt_incomp lt h hca hab hba
        have hcb' := swo_asymm lt h hbc
        rw [hcb] at hcb'
        simp at hcb'
    have h4 := h.2.2 b a c hba hab hac hca
    obtain ⟨h5, _⟩ := h4
    rw [hbc] at h5
    simp at h5

theorem pairLt_true_iff (lt1 : α → α → Bool) (lt2 : β → β → Bool)
    (p q : Pair α β) :
    pairLt lt1 lt2 p q = true ↔
      lt1 p.first q.first = true ∨
        (lt1 p.first q.first = false ∧ lt1 q.first p.first = false ∧
          lt2 p.second q.second = true) := by
  cases h1 : lt1 p.first q.first <;> cases h2 : lt1 q.first p.first <;>
    simp [pairLt, h1, h2]

theorem pairLt_both_false (lt1 : α → α → Bool) (lt2 : β → β → Bool)
    (p q : Pair α β) (hpq : pairLt lt1 lt2 p q = false)
    (hqp : pairLt lt1 lt2 q p = false) :
    lt1 p.first q.first = false ∧ lt1 q.first p.first = false ∧
      lt2 p.second q.second = false ∧ lt2 q.second p.second = false := by
  cases h1 : lt1 p.first q.first <;> cases h2 : lt1 q.first p.first <;>
    simp_all [pairLt]

/-- The xor of two 64-bit values is a 64-bit value. -/
theorem xor_lt_two_pow_64 {a b : Nat} (ha : a < 2 ^ 64) (hb : b < 2 ^ 64) :
    a ^^^ b < 2 ^ 64 := by
  show Nat.xor a b < 2 ^ 64
  unfold Nat.xor
  exact Nat.bitwise_lt ha hb

end MyStl

namespace MyStl

/-! # Claim theorems -/

/-- C1: for every pair of element types and all values `(u1, u2)`, the four
internal layout variants of `pair_impl_base` are observably equivalent:
constructing any of the four variants from `(u1, u2)` and reading
`first()`/`second()` yields `(u1, u2)` in each, and `swap` exchanges the same
logical values in each, regardless of which layout the policy selected. -/
theorem layout_variants_observably_equivalent :
    ∀ (α β : Type) (u1 v1 : α) (u2 v2 : β),
      ((BaseFF.mk2 u1 u2).obs = (u1, u2) ∧
       (BaseTF.mk2 u1 u2).obs = (u1, u2) ∧
       (BaseFT.mk2 u1 u2).obs = (u1, u2) ∧
       (BaseTT.mk2 u1 u2).obs = (u1, u2)) ∧
      ((BaseFF.swap2 (BaseFF.mk2 u1 u2) (BaseFF.mk2 v1 v2)).1.obs = (v1, v2) ∧
       (BaseFF.swap2 (BaseFF.mk2 u1 u2) (BaseFF.mk2 v1 v2)).2.obs = (u1, u2) ∧
       (BaseTF.swap2 (BaseTF.mk2 u1 u2) (BaseTF.mk2 v1 v2)).1.obs = (v1, v2) ∧
       (BaseTF.swap2 (BaseTF.mk2 u1 u2) (BaseTF.mk2 v1 v2)).2.obs = (u1, u2) ∧
       (BaseFT.swap2 (BaseFT.mk2 u1 u2) (BaseFT.mk2 v1 v2)).1.obs = (v1, v2) ∧
       (BaseFT.swap2 (BaseFT.mk2 u1 u2) (BaseFT.mk2 v1 v2)).2.obs = (u1, u2) ∧
       (BaseTT.swap2 (BaseTT.mk2 u1 u2) (BaseTT.mk2 v1 v2)).1.obs = (v1, v2) ∧
       (BaseTT.swap2 (BaseTT.mk2 u1 u2) (BaseTT.mk2 v1 v2)).2.obs = (u1, u2)) := by
  intro α β u1 v1 u2 v2
  exact ⟨⟨rfl, rfl, rfl, rfl⟩, ⟨rfl, rfl, rfl, rfl, rfl, rfl, rfl, rfl⟩⟩

/-- C2 counterexample: for a first element type that is stateless (empty) and
non-final and a 4-byte-integer second element, the `my_stl::pair` object — the
facade stores two named data members and never uses `pair_impl` — occupies 8
bytes, exactly the naive two-field size, so it is neither at most 4 bytes nor
strictly smaller than the naive layout; likewise with two stateless non-final
element types it occupies 2 bytes, not fewer than the naive two-field
layout. -/
theorem pair_facade_size_cex :
    pairFacadeSize emptyCT int4CT = 8 ∧
    twoFieldSize emptyCT int4CT = 8 ∧
    ¬ pairFacadeSize emptyCT int4CT ≤ 4 ∧
    ¬ pairFacadeSize emptyCT int4CT < twoFieldSize emptyCT int4CT ∧
    pairFacadeSize emptyCT emptyCT2 = 2 ∧
    ¬ pairFacadeSize emptyCT emptyCT2 < twoFieldSize emptyCT emptyCT2 := by
  decide

/-- C2 amended: the size-reduction property holds of the internal layout
`detail::pair_impl`, not of the public `pair` facade (which stores two named
members and has the naive two-field size). For any well-formed stateless,
non-final first element type: with a 4-byte-integer second element,
`sizeof(pair_impl)` is 4, strictly less than the 8-byte naive two-field
layout; and with a second element that is also stateless and non-final,
`sizeof(pair_impl)` is at most 2 (in fact 1) and strictly less than the naive
two-field layout. -/
theorem pair_impl_size_elides (t1 t2 : CType) (w1 : t1.WF) (w2 : t2.WF)
    (h1 : is_empty_and_non_final t1 = true) :
    (t2 = int4CT →
      pairImplSize t1 t2 = 4 ∧ pairImplSize t1 t2 < twoFieldSize t1 t2) ∧
    (is_empty_and_non_final t2 = true →
      pairImplSize t1 t2 ≤ 2 ∧ pairImplSize t1 t2 < twoFieldSize t1 t2) := by
  obtain ⟨s1, a1, e1, f1⟩ := t1
  simp only [is_empty_and_non_final, Bool.and_eq_true, Bool.not_eq_true'] at h1
  obtain ⟨he1, hf1⟩ := h1
  subst he1; subst hf1
  obtain ⟨hs1, ha1⟩ := w1.2.2.2 rfl
  subst hs1; subst ha1
  constructor
  · rintro rfl
    decide
  · intro h2
    obtain ⟨s2, a2, e2, f2⟩ := t2
    simp only [is_empty_and_non_final, Bool.and_eq_true, Bool.not_eq_true'] at h2
    obtain ⟨he2, hf2⟩ := h2
    subst he2; subst hf2
    obtain ⟨hs2, ha2⟩ := w2.2.2.2 rfl
    subst hs2; subst ha2
    decide

/-- Witness for the amended C2 theorem at the concrete element types of the
spec's scenario: `Empty` (stateless, non-final) and a 4-byte `int`. -/
theorem pair_impl_size_elides_witness :
    CType.WF emptyCT ∧ CType.WF int4CT ∧
      is_empty_and_non_final emptyCT = true ∧
      (pairImplSize emptyCT int4CT = 4 ∧
        pairImplSize emptyCT int4CT < twoFieldSize emptyCT int4CT) :=
  ⟨by decide, by decide, by decide,
    (pair_impl_size_elides emptyCT int4CT (by decide) (by decide)
      (by decide)).1 rfl⟩

/-- C3: evaluation at the failing input. The two-rvalue constructor
(`pair.hpp` 67), move construction from `std::pair` (`pair.hpp` 90-91) and
`swap` (`pair.hpp` 150-154) are declared unconditionally `noexcept`, so when
an element operation throws there, the program reaches `std::terminate`
instead of propagating the exception; by contrast the value constructor
(`pair.hpp` 64), which has no `noexcept` specifier, propagates the element's
exception unmodified, as the spec requires of every operation. -/
theorem noexcept_ops_terminate_on_throw :
    pairCtorRvalue (fun _ : Nat => (Except.error 0 : Except Nat Nat))
        (fun b : Nat => Except.ok b) 5 7 = CResult.terminated ∧
    pairCtorFromStdMove (fun _ : Nat => (Except.error 0 : Except Nat Nat))
        (fun b : Nat => Except.ok b) ⟨5, 7⟩ = CResult.terminated ∧
    pairSwapOp (fun _ _ : Nat => (Except.error 0 : Except Nat (Nat × Nat)))
        (fun a b : Nat => Except.ok (b, a)) ⟨1, 2⟩ ⟨3, 4⟩ =
      CResult.terminated ∧
    pairCtorValue (fun _ : Nat => (Except.error 0 : Except Nat Nat))
        (fun b : Nat => Except.ok b) 5 7 = CResult.thrown 0 :=
  ⟨rfl, rfl, rfl, rfl⟩

/-- C4 counterexample: a pair with a single fixed-size-array element type is
not rejected: `detail::pair_impl<T1[N], T2>` selects the primary template
(the both-arrays `static_assert` specialisation does not match), and the
`pair` facade performs no array check at all. -/
theorem single_array_not_rejected_cex :
    TypeForm.isArray (TypeForm.array 3) = true ∧
    pairImplRejected (TypeForm.array 3) TypeForm.value = false ∧
    pairImplRejected TypeForm.value (TypeForm.array 3) = false ∧
    pairFacadeRejected (TypeForm.array 3) TypeForm.value = false := by
  decide

/-- C4 amended: only an instantiation of `detail::pair_impl` in which BOTH
element types are fixed-size arrays is rejected at compile time (by the
always-failing `static_assert` of the both-arrays partial specialisation); an
instantiation with a single array slot selects the primary template with no
diagnostic, and the public `pair` facade carries no array rejection at
all. -/
theorem array_rejection_characterization :
    ∀ t1 t2 : TypeForm,
      pairImplRejected t1 t2 = (TypeForm.isArray t1 && TypeForm.isArray t2) ∧
      pairFacadeRejected t1 t2 = false := by
  intro t1 t2
  constructor
  · cases t1 <;> cases t2 <;> rfl
  · rfl

/-- C5: for all pairs `p`, `q` with the same element types, `p == q` holds
iff `p.first == q.first` and `p.second == q.second`, and `p != q` holds iff
`p == q` does not. -/
theorem pair_eq_iff_componentwise (eq1 : α → α → Bool) (eq2 : β → β → Bool)
    (p q : Pair α β) :
    (pairEq eq1 eq2 p q = true ↔
      eq1 p.first q.first = true ∧ eq2 p.second q.second = true) ∧
    (pairNe eq1 eq2 p q = true ↔ ¬ pairEq eq1 eq2 p q = true) := by
  constructor
  · simp [pairEq]
  · simp [pairNe]

/-- C6: for element orderings that are strict weak orderings, `p < q` is the
lexicographic comparison of `(first, second)` — if `p.first < q.first` the
pair is less, if `q.first < p.first` it is not less, otherwise the result is
`p.second < q.second` — and `p < q` is itself a strict weak ordering. -/
theorem pair_lt_lex_strict_weak_order (lt1 : α → α → Bool)
    (lt2 : β → β → Bool) (hs1 : IsSWO lt1) (hs2 : IsSWO lt2) :
    (∀ p q : Pair α β,
      lt1 p.first q.first = true → pairLt lt1 lt2 p q = true) ∧
    (∀ p q : Pair α β,
      lt1 q.first p.first = true → pairLt lt1 lt2 p q = false) ∧
    (∀ p q : Pair α β,
      lt1 p.first q.first = false → lt1 q.first p.first = false →
        pairLt lt1 lt2 p q = lt2 p.second q.second) ∧
    IsSWO (pairLt lt1 lt2) := by
  refine ⟨?_, ?_, ?_, ?_, ?_, ?_⟩
  · intro p q h
    simp [pairLt, h]
  · intro p q h
    have h' := swo_asymm lt1 hs1 h
    simp [pairLt, h, h']
  · intro p q h h'
    simp [pairLt, h, h']
  · -- irreflexivity
    intro p
    simp [pairLt, hs1.1, hs2.1]
  · -- transitivity
    intro p q r hpq hqr
    rw [pairLt_true_iff] at hpq hqr ⊢
    rcases hpq with hpq | ⟨hpq1, hqp1, hpq2⟩
    · rcases hqr with hqr | ⟨hqr1, hrq1, hqr2⟩
      · exact Or.inl (hs1.2.1 _ _ _ hpq hqr)
      · exact Or.inl (swo_lt_incomp lt1 hs1 hpq hqr1 hrq1)
    · rcases hqr with hqr | ⟨hqr1, hrq1, hqr2⟩
      · exact Or.inl (swo_incomp_lt lt1 hs1 hpq1 hqp1 hqr)
      · obtain ⟨hpr1, hrp1⟩ := hs1.2.2 _ _ _ hpq1 hqp1 hqr1 hrq1
        exact Or.inr ⟨hpr1, hrp1, hs2.2.1 _ _ _ hpq2 hqr2⟩
  · -- transitivity of incomparability
    intro p q r hpq hqp hqr hrq
    obtain ⟨hpq1, hqp1, hpq2, hqp2⟩ := pairLt_both_false lt1 lt2 p q hpq hqp
    obtain ⟨hqr1, hrq1, hqr2, hrq2⟩ := pairLt_both_false lt1 lt2 q r hqr hrq
    obtain ⟨hpr1, hrp1⟩ := hs1.2.2 _ _ _ hpq1 hqp1 hqr1 hrq1
    obtain ⟨hpr2, hrp2⟩ := hs2.2.2 _ _ _ hpq2 hqp2 hqr2 hrq2
    constructor
    · simp [pairLt, hpr1, hrp1, hpr2]
    · simp [pairLt, hpr1, hrp1, hrp2]

/-- Witness for the lexicographic strict-weak-ordering theorem at the
concrete ordering `finLt` on `Fin 2`. -/
theorem pair_lt_lex_strict_weak_order_witness :
    IsSWO (pairLt finLt finLt) :=
  (pair_lt_lex_strict_weak_order finLt finLt (by decide) (by decide)).2.2.2

/-- C7: the pair's hash value equals `h1 XOR (h2 << 1)` on 64-bit `size_t`
values, where `h1`/`h2` are the element hashes of `first`/`second`. -/
theorem pair_hash_formula (hash1 : α → Nat) (hash2 : β → Nat) (p : Pair α β)
    (hb1 : hash1 p.first < 2 ^ 64) (hb2 : hash2 p.second < 2 ^ 64) :
    pairHash hash1 hash2 p =
      hash1 p.first ^^^ ((hash2 p.second <<< 1) % 2 ^ 64) := by
  unfold pairHash
  simp only [Nat.mod_eq_of_lt hb1, Nat.mod_eq_of_lt hb2]
  exact Nat.mod_eq_of_lt (xor_lt_two_pow_64 hb1 (Nat.mod_lt _ (by norm_num)))

/-- Witness for the hash theorem at concrete element hashes and values. -/
theorem pair_hash_formula_witness :
    (3 : Nat) < 2 ^ 64 ∧ (5 : Nat) < 2 ^ 64 ∧
      pairHash (fun n : Nat => n) (fun n : Nat => n) ⟨3, 5⟩ =
        3 ^^^ ((5 <<< 1) % 2 ^ 64) :=
  ⟨by norm_num, by norm_num,
    pair_hash_formula (fun n : Nat => n) (fun n : Nat => n) ⟨3, 5⟩
      (by norm_num) (by norm_num)⟩

/-- C8: converting a pair to `std::pair` and constructing a pair back from it
yields a pair equal to the original, for any reflexive element
equalities. -/
theorem pair_std_roundtrip (eq1 : α → α → Bool) (eq2 : β → β → Bool)
    (hr1 : ∀ a, eq1 a a = true) (hr2 : ∀ b, eq2 b b = true) (p : Pair α β) :
    pairEq eq1 eq2 p (pairFromStd (pairToStd p)) = true := by
  simp [pairToStd, pairFromStd, pairEq, hr1, hr2]

/-- Witness for the round-trip theorem at a concrete `Nat × Nat` pair. -/
theorem pair_std_roundtrip_witness :
    pairEq (fun a b : Nat => a == b) (fun a b : Nat => a == b) ⟨2, 7⟩
      (pairFromStd (pairToStd ⟨2, 7⟩)) = true :=
  pair_std_roundtrip (fun a b : Nat => a == b) (fun a b : Nat => a == b)
    (by simp) (by simp) ⟨2, 7⟩

/-- C9: `swap(p, p)` (self-exchange) leaves `p` unchanged, and performing
`swap(p, q)` twice restores both pairs to their original values. -/
theorem pair_swap_self_and_involution :
    (∀ (α β : Type) (p : Pair α β), pairSwapSelf p = p) ∧
    (∀ (α β : Type) (p q : Pair α β),
      pairSwap (pairSwap p q).1 (pairSwap p q).2 = (p, q)) := by
  constructor
  · intro α β p
    rfl
  · intro α β p q
    rfl

/-- C10: self-assignment through either the copy- or the move-assignment
operator leaves both slots unchanged for every element assignment behaviour —
including value-destroying self-move-assignments — because both operators
guard with `this != &other` (the guard is `false` on a self-assignment) and
skip the slot assignments. -/
theorem pair_self_assign_noop :
    ∀ (α β : Type) (asg1 masg1 : α → α → α) (asg2 masg2 : β → β → β)
      (p : Pair α β),
      pairCopyAssign false asg1 asg2 p p = p ∧
        pairMoveAssign false masg1 masg2 p p = p := by
  intro α β asg1 masg1 asg2 masg2 p
  exact ⟨rfl, rfl⟩

end MyStl
